import Mathlib

/-!
Shallow embedding of the HomeschoolHub landing page's form validation and
submission pipeline: the reusable validation utilities module and the contact
form module (validation rules, honeypot spam check, and the submit handler),
together with theorems checking the specification's claims against it.

Strings are modelled at the level of their character lists (`String.data`),
which matches JavaScript string semantics for all the ASCII-level operations
the pipeline performs.  DOM-only side effects (class toggling, focus, ARIA
attribute writes, console logging) are outside the model; the observable
outcomes the claims speak about (validation performed, submission endpoint
called, success and error notices, submit-button state, form state) are
recorded explicitly in an outcome record.
-/

/-- JavaScript whitespace set, as used by `String.prototype.trim` and the
`\s` regex class: tab, LF, VT, FF, CR, space, NBSP, and the Unicode space
separators, line and paragraph separators, and BOM. -/
def jsWhitespace (c : Char) : Bool :=
  c.toNat = 0x09 || c.toNat = 0x0A || c.toNat = 0x0B || c.toNat = 0x0C ||
  c.toNat = 0x0D || c.toNat = 0x20 || c.toNat = 0xA0 || c.toNat = 0x1680 ||
  (0x2000 ≤ c.toNat && c.toNat ≤ 0x200A) || c.toNat = 0x2028 ||
  c.toNat = 0x2029 || c.toNat = 0x202F || c.toNat = 0x205F ||
  c.toNat = 0x3000 || c.toNat = 0xFEFF

/-- ASCII control characters, the class `[\x00-\x1F\x7F]` of the source's
sanitizer regex. -/
def isCtlChar (c : Char) : Bool :=
  c.toNat ≤ 0x1F || c.toNat = 0x7F

/-- List-level model of `String.prototype.trim`: drop JS whitespace from both
ends. -/
def trimL (l : List Char) : List Char :=
  ((l.dropWhile jsWhitespace).reverse.dropWhile jsWhitespace).reverse

/-- `String.prototype.trim` on strings. -/
def jsTrim (s : String) : String :=
  String.mk (trimL s.data)

/-- Model of `String.prototype.split(c)` for a single-character separator:
splits into the (possibly empty) chunks between occurrences of `c`. -/
def splitOnChar (c : Char) (l : List Char) : List (List Char) :=
  match l with
  | [] => [[]]
  | x :: xs =>
    let r := splitOnChar c xs
    if x = c then [] :: r
    else
      match r with
      | [] => [[x]]
      | h :: t => (x :: h) :: t

/-- JavaScript `a || b` on strings: the empty string is falsy. -/
def jsOr (s fallback : String) : String :=
  if s = "" then fallback else s

namespace Validation

/-! Embedding of the form-validation utilities module (`validation.js`). -/

/-- `VALIDATION_CONFIG.MIN_PHONE_DIGITS`. -/
def MIN_PHONE_DIGITS : Nat := 10

/-- `VALIDATION_CONFIG.MAX_PHONE_DIGITS`. -/
def MAX_PHONE_DIGITS : Nat := 15

/-- `VALIDATION_CONFIG.MIN_MESSAGE_LENGTH`. -/
def MIN_MESSAGE_LENGTH : Nat := 10

/-- `VALIDATION_CONFIG.MAX_MESSAGE_LENGTH`. -/
def MAX_MESSAGE_LENGTH : Nat := 1000

/-- `VALIDATION_CONFIG.MIN_NAME_LENGTH`. -/
def MIN_NAME_LENGTH : Nat := 2

/-- `VALIDATION_CONFIG.MAX_NAME_LENGTH`. -/
def MAX_NAME_LENGTH : Nat := 100

/-- `ERROR_MESSAGES.REQUIRED`. -/
def REQUIRED : String := "This field is required"

/-- `ERROR_MESSAGES.EMAIL_INVALID`. -/
def EMAIL_INVALID : String := "Please enter a valid email address"

/-- `ERROR_MESSAGES.EMAIL_FORMAT`. -/
def EMAIL_FORMAT : String := "Email must be in format: name@domain.com"

/-- `ERROR_MESSAGES.PHONE_FORMAT`. -/
def PHONE_FORMAT : String := "Phone must contain 10-15 digits"

/-- `ERROR_MESSAGES.PHONE_CHARACTERS`. -/
def PHONE_CHARACTERS : String :=
  "Phone can only contain numbers, spaces, hyphens, and parentheses"

/-- `ERROR_MESSAGES.NAME_TOO_SHORT`. -/
def NAME_TOO_SHORT : String := "Name must be at least 2 characters"

/-- `ERROR_MESSAGES.NAME_TOO_LONG`. -/
def NAME_TOO_LONG : String := "Name cannot exceed 100 characters"

/-- `ERROR_MESSAGES.MESSAGE_TOO_SHORT`. -/
def MESSAGE_TOO_SHORT : String := "Message must be at least 10 characters"

/-- `ERROR_MESSAGES.MESSAGE_TOO_LONG`. -/
def MESSAGE_TOO_LONG : String := "Message cannot exceed 1000 characters"

/-- `ERROR_MESSAGES.GRADE_INVALID`. -/
def GRADE_INVALID : String := "Please select a valid grade level"

/-- The `ValidationResult` produced by every validator in the module:
`{ isValid, error, value }`. -/
structure ValidationResult where
  isValid : Bool
  error : Option String
  value : String
deriving DecidableEq

/-- JavaScript values a form field can hand to a validator: a string, or one
of the non-string values the claims mention (`null`, `undefined`, a number,
an object).  Only `typeof value === "string"` distinguishes them in the
source. -/
inductive JsValue where
  | str (s : String)
  | nullV
  | undef
  | num (n : Int)
  | obj
deriving DecidableEq

/-- Whether a `JsValue` is a string (JS `typeof value === "string"`). -/
def JsValue.isString : JsValue → Bool
  | .str _ => true
  | _ => false

/-- `sanitizeString`: non-strings become the empty string; strings are
trimmed and then stripped of ASCII control characters. -/
def sanitizeStringJs : JsValue → String
  | .str s => String.mk ((trimL s.data).filter (fun c => !(isCtlChar c)))
  | _ => ""

/-- `sanitizeString` restricted to string inputs. -/
def sanitizeString (s : String) : String :=
  sanitizeStringJs (.str s)

/-- `validateRequired` on an arbitrary JS value.  The `fieldName` parameter
is accepted but unused by the source's body. -/
def validateRequiredJs (value : JsValue) (_fieldName : String) : ValidationResult :=
  let sanitized := sanitizeStringJs value
  if sanitized.length = 0 then
    { isValid := false, error := some REQUIRED, value := sanitized }
  else
    { isValid := true, error := none, value := sanitized }

/-- `validateRequired` on string inputs. -/
def validateRequired (value : String) (fieldName : String) : ValidationResult :=
  validateRequiredJs (.str value) fieldName

/-- ASCII letters and digits, the regex class `[a-zA-Z0-9]`. -/
def alnumChar (c : Char) : Bool :=
  c.isAlpha || c.isDigit

/-- The local-part character class of `VALIDATION_CONFIG.EMAIL_REGEX`:
alphanumerics plus the listed specials (including apostrophe, code 39, and
backtick, code 96). -/
def emailLocalChar (c : Char) : Bool :=
  alnumChar c ||
  ([ '.', '!', '#', '$', '%', '&', Char.ofNat 39, '*', '+', '/', '=', '?',
     '^', '_', Char.ofNat 96, '{', '|', '}', '~', '-' ].contains c)

/-- One domain label of `EMAIL_REGEX`:
`[a-zA-Z0-9](?:[a-zA-Z0-9-]{0,61}[a-zA-Z0-9])?` — one alphanumeric, or an
alphanumeric, up to 61 alphanumeric-or-hyphen characters, and a final
alphanumeric (length 1 to 63, alphanumeric ends, hyphens allowed inside). -/
def labelOk (l : List Char) : Bool :=
  match l with
  | [] => false
  | c :: rest =>
    alnumChar c &&
    (match rest.reverse with
     | [] => true
     | lastC :: midRev =>
       alnumChar lastC && midRev.length ≤ 61 &&
       midRev.all (fun d => alnumChar d || d = '-'))

/-- Whole-string test of `VALIDATION_CONFIG.EMAIL_REGEX`.  Neither character
class of the regex contains `@`, and labels contain no dot, so the anchored
pattern `^local@label(\.label)*$` holds exactly when splitting on `@` yields
one non-empty all-local-characters part and one domain whose dot-separated
chunks are each a valid label. -/
def emailRegexTest (l : List Char) : Bool :=
  match splitOnChar '@' l with
  | [loc, dom] =>
    !loc.isEmpty && loc.all emailLocalChar &&
    (splitOnChar '.' dom).all labelOk
  | _ => false

/-- ASCII lower-casing, matching JS `toLowerCase` on one character when the
character is ASCII.  `EMAIL_REGEX` only accepts ASCII strings, so on every
value the source lower-cases this agrees with JavaScript. -/
def jsToLowerChar (c : Char) : Char :=
  if 65 ≤ c.toNat && c.toNat ≤ 90 then Char.ofNat (c.toNat + 32) else c

/-- ASCII lower-casing of a string (JS `toLowerCase` on ASCII strings). -/
def jsToLower (s : String) : String :=
  String.mk (s.data.map jsToLowerChar)

/-- `validateEmail` on an arbitrary JS value: empty-handling by the required
flag, then the regex test, then the split-on-`@` shape and part-length
checks, and on success the lower-cased sanitized value. -/
def validateEmailJs (email : JsValue) (required : Bool) : ValidationResult :=
  let sanitized := sanitizeStringJs email
  if sanitized = "" then
    if required then
      { isValid := false, error := some REQUIRED, value := sanitized }
    else
      { isValid := true, error := none, value := sanitized }
  else if !(emailRegexTest sanitized.data) then
    { isValid := false, error := some EMAIL_INVALID, value := sanitized }
  else
    match splitOnChar '@' sanitized.data with
    | [localPart, domain] =>
      if localPart.isEmpty || domain.isEmpty then
        { isValid := false, error := some EMAIL_FORMAT, value := sanitized }
      else if localPart.length > 64 || domain.length > 255 then
        { isValid := false, error := some EMAIL_INVALID, value := sanitized }
      else
        { isValid := true, error := none, value := jsToLower sanitized }
    | _ =>
      { isValid := false, error := some EMAIL_FORMAT, value := sanitized }

/-- `validateEmail` on string inputs. -/
def validateEmail (email : String) (required : Bool) : ValidationResult :=
  validateEmailJs (.str email) required

/-- `normalizePhone`: non-strings become the empty string; strings keep only
their digits (`replace(/\D/g, "")`). -/
def normalizePhoneJs : JsValue → String
  | .str s => String.mk (s.data.filter Char.isDigit)
  | _ => ""

/-- `normalizePhone` on string inputs. -/
def normalizePhone (phone : String) : String :=
  normalizePhoneJs (.str phone)

/-- `formatPhone`: 10 digits become `(abc) def-ghij`; 11 digits starting
with `1` become `+1 (bcd) efg-hijk`; anything else passes through
unchanged. -/
def formatPhone (phone : String) : String :=
  let digits := (normalizePhone phone).data
  if digits.length = 10 then
    String.mk ('(' :: digits.take 3 ++ ')' :: ' ' ::
      (digits.drop 3).take 3 ++ '-' :: digits.drop 6)
  else if digits.length = 11 && digits.head? == some '1' then
    String.mk ('+' :: '1' :: ' ' :: '(' :: (digits.drop 1).take 3 ++ ')' :: ' ' ::
      (digits.drop 4).take 3 ++ '-' :: digits.drop 7)
  else
    phone

/-- The character class of `VALIDATION_CONFIG.PHONE_REGEX`, `[\d\s\-\(\)]`:
digits, JS whitespace, hyphen, parentheses. -/
def phoneChar (c : Char) : Bool :=
  c.isDigit || jsWhitespace c || c = '-' || c = '(' || c = ')'

/-- Whole-string test of `PHONE_REGEX` (`^[\d\s\-\(\)]+$`): non-empty and
every character in the class. -/
def phoneRegexTest (l : List Char) : Bool :=
  !l.isEmpty && l.all phoneChar

/-- `validatePhone` on an arbitrary JS value: empty-handling by the required
flag, the character-class regex, the 10–15 digit-count bounds, and on
success the display-formatted value. -/
def validatePhoneJs (phone : JsValue) (required : Bool) : ValidationResult :=
  let sanitized := sanitizeStringJs phone
  if sanitized = "" then
    if required then
      { isValid := false, error := some REQUIRED, value := sanitized }
    else
      { isValid := true, error := none, value := sanitized }
  else if !(phoneRegexTest sanitized.data) then
    { isValid := false, error := some PHONE_CHARACTERS, value := sanitized }
  else
    let digits := normalizePhone sanitized
    if digits.length < MIN_PHONE_DIGITS then
      { isValid := false, error := some PHONE_FORMAT, value := sanitized }
    else if digits.length > MAX_PHONE_DIGITS then
      { isValid := false, error := some PHONE_FORMAT, value := sanitized }
    else
      { isValid := true, error := none, value := formatPhone sanitized }

/-- `validatePhone` on string inputs. -/
def validatePhone (phone : String) (required : Bool) : ValidationResult :=
  validatePhoneJs (.str phone) required

/-- `validateName` on an arbitrary JS value: required/empty handling, then
the 2–100 length bounds on the sanitized value. -/
def validateNameJs (name : JsValue) (required : Bool) : ValidationResult :=
  let sanitized := sanitizeStringJs name
  if sanitized = "" then
    if required then
      { isValid := false, error := some REQUIRED, value := sanitized }
    else
      { isValid := true, error := none, value := sanitized }
  else if sanitized.length < MIN_NAME_LENGTH then
    { isValid := false, error := some NAME_TOO_SHORT, value := sanitized }
  else if sanitized.length > MAX_NAME_LENGTH then
    { isValid := false, error := some NAME_TOO_LONG, value := sanitized }
  else
    { isValid := true, error := none, value := sanitized }

/-- `validateName` on string inputs. -/
def validateName (name : String) (required : Bool) : ValidationResult :=
  validateNameJs (.str name) required

/-- `validateMessage` on an arbitrary JS value: required/empty handling,
then the 10–1000 length bounds on the sanitized value. -/
def validateMessageJs (message : JsValue) (required : Bool) : ValidationResult :=
  let sanitized := sanitizeStringJs message
  if sanitized = "" then
    if required then
      { isValid := false, error := some REQUIRED, value := sanitized }
    else
      { isValid := true, error := none, value := sanitized }
  else if sanitized.length < MIN_MESSAGE_LENGTH then
    { isValid := false, error := some MESSAGE_TOO_SHORT, value := sanitized }
  else if sanitized.length > MAX_MESSAGE_LENGTH then
    { isValid := false, error := some MESSAGE_TOO_LONG, value := sanitized }
  else
    { isValid := true, error := none, value := sanitized }

/-- `validateMessage` on string inputs. -/
def validateMessage (message : String) (required : Bool) : ValidationResult :=
  validateMessageJs (.str message) required

/-- The module's `validGrades` list (`"k"` through `"12"`). -/
def validGrades : List String :=
  ["k", "1", "2", "3", "4", "5", "6", "7", "8", "9", "10", "11", "12"]

/-- `validateGrade` on an arbitrary JS value: required/empty handling, then
membership of the lower-cased sanitized value in `validGrades`; the returned
value is the sanitized input (not lower-cased). -/
def validateGradeJs (grade : JsValue) (required : Bool) : ValidationResult :=
  let sanitized := sanitizeStringJs grade
  if sanitized = "" then
    if required then
      { isValid := false, error := some REQUIRED, value := sanitized }
    else
      { isValid := true, error := none, value := sanitized }
  else if !(validGrades.contains (jsToLower sanitized)) then
    { isValid := false, error := some GRADE_INVALID, value := sanitized }
  else
    { isValid := true, error := none, value := sanitized }

/-- `validateGrade` on string inputs. -/
def validateGrade (grade : String) (required : Bool) : ValidationResult :=
  validateGradeJs (.str grade) required

end Validation

namespace Contact

/-! Embedding of the contact form module (`contact.js`): its own validation
rules, the honeypot spam check, the form validation pass, and the submit
handler. -/

/-- `CONTACT_CONFIG.HONEYPOT_FIELD`. -/
def HONEYPOT_FIELD : String := "website"

/-- `CONTACT_CONFIG.MIN_MESSAGE_LENGTH`. -/
def MIN_MESSAGE_LENGTH : Nat := 10

/-- `CONTACT_CONFIG.MAX_MESSAGE_LENGTH`. -/
def MAX_MESSAGE_LENGTH : Nat := 1000

/-- `ERROR_MESSAGES.REQUIRED` of the contact module. -/
def REQUIRED : String := "This field is required"

/-- `ERROR_MESSAGES.INVALID_EMAIL`. -/
def INVALID_EMAIL : String := "Please enter a valid email address"

/-- `ERROR_MESSAGES.INVALID_PHONE`. -/
def INVALID_PHONE : String := "Please enter a valid phone number (10 digits minimum)"

/-- `ERROR_MESSAGES.MESSAGE_TOO_SHORT` (interpolated with the config). -/
def MESSAGE_TOO_SHORT : String := "Message must be at least 10 characters"

/-- `ERROR_MESSAGES.MESSAGE_TOO_LONG` (interpolated with the config). -/
def MESSAGE_TOO_LONG : String := "Message must not exceed 1000 characters"

/-- `ERROR_MESSAGES.INVALID_GRADE`. -/
def INVALID_GRADE : String := "Please select a valid grade level"

/-- `ERROR_MESSAGES.SUBMISSION_FAILED`. -/
def SUBMISSION_FAILED : String := "Failed to submit form. Please try again."

/-- `ERROR_MESSAGES.NETWORK_ERROR`. -/
def NETWORK_ERROR : String := "Network error. Please check your connection and try again."

/-- The `VALID_GRADES` list of the contact module. -/
def VALID_GRADES : List String :=
  ["pre-k", "kindergarten", "grade-1", "grade-2", "grade-3", "grade-4",
   "grade-5", "grade-6", "grade-7", "grade-8", "grade-9", "grade-10",
   "grade-11", "grade-12"]

/-- The `{ isValid, error }` record returned by each rule in
`validationRules`. -/
structure ContactRuleResult where
  isValid : Bool
  error : Option String
deriving DecidableEq

/-- `validationRules.parentName`. -/
def ruleParentName (value : String) : ContactRuleResult :=
  let trimmed := jsTrim value
  if trimmed = "" then
    { isValid := false, error := some REQUIRED }
  else if trimmed.length < 2 then
    { isValid := false, error := some "Name must be at least 2 characters" }
  else
    { isValid := true, error := none }

/-- Whole-string test of the contact module's email regex
`^[^\s@]+@[^\s@]+\.[^\s@]+$`.  `[^\s@]` excludes whitespace and `@`, so a
match has exactly one `@`; after it, the greedy `[^\s@]+\.[^\s@]+` matches
exactly when some dot sits strictly inside the domain part. -/
def contactEmailRegexTest (l : List Char) : Bool :=
  match splitOnChar '@' l with
  | [loc, dom] =>
    !loc.isEmpty && loc.all (fun c => !(jsWhitespace c)) &&
    !dom.isEmpty && dom.all (fun c => !(jsWhitespace c)) &&
    ((dom.drop 1).dropLast).contains '.'
  | _ => false

/-- `validationRules.email`. -/
def ruleEmail (value : String) : ContactRuleResult :=
  let trimmed := jsTrim value
  if trimmed = "" then
    { isValid := false, error := some REQUIRED }
  else if !(contactEmailRegexTest trimmed.data) then
    { isValid := false, error := some INVALID_EMAIL }
  else
    { isValid := true, error := none }

/-- `validationRules.phone`: empty is accepted; otherwise only the
digit-only count is checked, against the single lower bound 10. -/
def rulePhone (value : String) : ContactRuleResult :=
  let trimmed := jsTrim value
  if trimmed = "" then
    { isValid := true, error := none }
  else
    let digitsOnly := trimmed.data.filter Char.isDigit
    if digitsOnly.length < 10 then
      { isValid := false, error := some INVALID_PHONE }
    else
      { isValid := true, error := none }

/-- `validationRules.gradeLevel`. -/
def ruleGradeLevel (value : String) : ContactRuleResult :=
  let trimmed := jsTrim value
  if trimmed = "" then
    { isValid := false, error := some REQUIRED }
  else if !(VALID_GRADES.contains trimmed) then
    { isValid := false, error := some INVALID_GRADE }
  else
    { isValid := true, error := none }

/-- `validationRules.message`. -/
def ruleMessage (value : String) : ContactRuleResult :=
  let trimmed := jsTrim value
  if trimmed = "" then
    { isValid := false, error := some REQUIRED }
  else if trimmed.length < MIN_MESSAGE_LENGTH then
    { isValid := false, error := some MESSAGE_TOO_SHORT }
  else if trimmed.length > MAX_MESSAGE_LENGTH then
    { isValid := false, error := some MESSAGE_TOO_LONG }
  else
    { isValid := true, error := none }

/-- Lookup in the `validationRules` object: the five named rules, nothing
for any other field name. -/
def validationRules (fieldName : String) : Option (String → ContactRuleResult) :=
  if fieldName = "parentName" then some ruleParentName
  else if fieldName = "email" then some ruleEmail
  else if fieldName = "phone" then some rulePhone
  else if fieldName = "gradeLevel" then some ruleGradeLevel
  else if fieldName = "message" then some ruleMessage
  else none

/-- A named form field with its current value. -/
structure Field where
  name : String
  value : String
deriving DecidableEq

/-- The contact form: its named fields (in document order) and the submit
button's current label (the `originalButtonText` the handler captures). -/
structure Form where
  fields : List Field
  submitBtnText : String
deriving DecidableEq

/-- The module-level `formState`: the `isSubmitting` flag, the
`validationErrors` map (field name to message, in insertion order) and the
`touchedFields` set. -/
structure FormState where
  isSubmitting : Bool
  validationErrors : List (String × String)
  touchedFields : List String
deriving DecidableEq

/-- JS `Map.delete`: drop the entry for the key, keeping the others in
order. -/
def mapDelete (m : List (String × String)) (k : String) : List (String × String) :=
  m.filter (fun p => p.1 != k)

/-- JS `Map.set`: replace in place when the key is present, else append. -/
def mapSet (m : List (String × String)) (k v : String) : List (String × String) :=
  if m.any (fun p => p.1 == k) then
    m.map (fun p => if p.1 == k then (k, v) else p)
  else
    m ++ [(k, v)]

/-- `checkHoneypot`: true (not spam) when the honeypot field is absent or
its trimmed value is empty. -/
def checkHoneypot (form : Form) : Bool :=
  match form.fields.find? (fun f => f.name == HONEYPOT_FIELD) with
  | none => true
  | some honeypotField =>
    let isSpam := jsTrim honeypotField.value != ""
    !isSpam

/-- `validateField` on a named field: clear any recorded error, look up the
field's rule (no rule means valid), run it, and on failure record the error
message (`showFieldError` writes it into `formState.validationErrors`).
Returns the updated state and the field's verdict. -/
def validateField (st : FormState) (f : Field) : FormState × Bool :=
  let st1 := { st with validationErrors := mapDelete st.validationErrors f.name }
  match validationRules f.name with
  | none => (st1, true)
  | some rule =>
    let r := rule f.value
    if r.isValid then
      (st1, true)
    else
      ({ st1 with
         validationErrors := mapSet st1.validationErrors f.name (r.error.getD "") },
       false)

/-- `validateForm`: validate every named field except the honeypot, in
order; the form is valid only if every field is.  (Moving focus to the
first invalid field is a DOM effect outside the model.) -/
def validateForm (st : FormState) (form : Form) : FormState × Bool :=
  let fields := form.fields.filter (fun f => f.name != HONEYPOT_FIELD)
  fields.foldl
    (fun acc f =>
      let r := validateField acc.1 f
      (r.1, acc.2 && r.2))
    (st, true)

/-- How the awaited `submitFormData` call ends: the promise resolves with a
`success` flag and message, or rejects/throws with an error message. -/
inductive SubmitResult where
  | resolved (success : Bool) (message : String)
  | rejected (message : String)
deriving DecidableEq

/-- Everything observable about one run of `handleFormSubmit`: the final
`formState`, whether form validation ran, whether `submitFormData` was
invoked, which notice (success or error) was shown, the submit button's
final state, and whether `form.reset()` ran. -/
structure Outcome where
  state : FormState
  validationRan : Bool
  submitCalled : Bool
  successShown : Bool
  errorShown : Option String
  btnDisabled : Bool
  btnText : String
  btnAriaBusy : Bool
  formWasReset : Bool
deriving DecidableEq

/-- An `Outcome` for the early-return paths of the handler: nothing ran,
nothing shown, state and button untouched. -/
def noOpOutcome (st : FormState) (form : Form) : Outcome :=
  { state := st, validationRan := false, submitCalled := false,
    successShown := false, errorShown := none, btnDisabled := false,
    btnText := form.submitBtnText, btnAriaBusy := false, formWasReset := false }

/-- `handleFormSubmit`: the in-flight guard, the honeypot check, full-form
validation, and then — with the submitting flag set and the button put into
its busy state — the awaited `submitFormData` call inside
`try`/`catch`/`finally`.  A resolved `success: true` resets the form,
clears the error map and touched set, and shows the success notice; a
resolved `success: false` throws `result.message || SUBMISSION_FAILED`,
which the `catch` shows (with `NETWORK_ERROR` as last fallback), as it does
a rejection's message; the `finally` clears `isSubmitting` and restores the
button on every one of those paths. -/
def handleFormSubmit (st : FormState) (form : Form) (res : SubmitResult) : Outcome :=
  if st.isSubmitting then
    noOpOutcome st form
  else if !(checkHoneypot form) then
    noOpOutcome st form
  else
    let v := validateForm st form
    if !v.2 then
      { state := v.1, validationRan := true, submitCalled := false,
        successShown := false, errorShown := none, btnDisabled := false,
        btnText := form.submitBtnText, btnAriaBusy := false, formWasReset := false }
    else
      match res with
      | .resolved true _ =>
        { state := { isSubmitting := false, validationErrors := [], touchedFields := [] },
          validationRan := true, submitCalled := true, successShown := true,
          errorShown := none, btnDisabled := false,
          btnText := form.submitBtnText, btnAriaBusy := false, formWasReset := true }
      | .resolved false m =>
        { state := { isSubmitting := false, validationErrors := v.1.validationErrors,
                     touchedFields := v.1.touchedFields },
          validationRan := true, submitCalled := true, successShown := false,
          errorShown := some (jsOr (jsOr m SUBMISSION_FAILED) NETWORK_ERROR),
          btnDisabled := false, btnText := form.submitBtnText,
          btnAriaBusy := false, formWasReset := false }
      | .rejected m =>
        { state := { isSubmitting := false, validationErrors := v.1.validationErrors,
                     touchedFields := v.1.touchedFields },
          validationRan := true, submitCalled := true, successShown := false,
          errorShown := some (jsOr m NETWORK_ERROR), btnDisabled := false,
          btnText := form.submitBtnText, btnAriaBusy := false, formWasReset := false }

end Contact

/-- A concrete all-valid contact form used by witnesses. -/
def goodForm : Contact.Form :=
  { fields :=
      [ { name := "parentName", value := "Jordan Lee" },
        { name := "email", value := "jordan@example.com" },
        { name := "phone", value := "4155551234" },
        { name := "gradeLevel", value := "grade-5" },
        { name := "message", value := "We are interested in your curriculum." },
        { name := "website", value := "" } ],
    submitBtnText := "Send Message" }

/-- `goodForm` with the honeypot field filled in by a bot. -/
def spamForm : Contact.Form :=
  { fields :=
      [ { name := "parentName", value := "Jordan Lee" },
        { name := "email", value := "jordan@example.com" },
        { name := "phone", value := "4155551234" },
        { name := "gradeLevel", value := "grade-5" },
        { name := "message", value := "We are interested in your curriculum." },
        { name := "website", value := "spam-bot" } ],
    submitBtnText := "Send Message" }

/-- An idle form state: no submission in flight, no errors, nothing
touched. -/
def idleState : Contact.FormState :=
  { isSubmitting := false, validationErrors := [], touchedFields := [] }

example : Contact.checkHoneypot goodForm = true := by decide

example : Contact.checkHoneypot spamForm = false := by decide

example : (Contact.validateForm idleState goodForm).2 = true := by decide

example :
    (Contact.handleFormSubmit idleState goodForm (.resolved true "")).submitCalled = true := by
  decide

example :
    (Contact.handleFormSubmit idleState spamForm (.resolved true "")).submitCalled = false := by
  decide

example : Contact.rulePhone "1234567890123456" = { isValid := true, error := none } := by
  decide

example : Validation.sanitizeString "  hi\x01 " = "hi" := by decide

/-- C1: whenever the form's honeypot field has a non-empty trimmed value,
`handleFormSubmit` returns before running form validation, never invokes the
submission endpoint, and shows neither a success nor an error notice —
whatever the form state, the other fields' values, and the would-be
submission result. -/
theorem c1_honeypot_blocks_pipeline (st : Contact.FormState) (form : Contact.Form)
    (res : Contact.SubmitResult) (f : Contact.Field)
    (hf : form.fields.find? (fun g => g.name == Contact.HONEYPOT_FIELD) = some f)
    (hv : jsTrim f.value ≠ "") :
    (Contact.handleFormSubmit st form res).validationRan = false ∧
    (Contact.handleFormSubmit st form res).submitCalled = false ∧
    (Contact.handleFormSubmit st form res).successShown = false ∧
    (Contact.handleFormSubmit st form res).errorShown = none := by
  have hcp : Contact.checkHoneypot form = false := by
    unfold Contact.checkHoneypot
    rw [hf]
    simp [hv]
  unfold Contact.handleFormSubmit
  by_cases hs : st.isSubmitting
  · simp [hs, Contact.noOpOutcome]
  · simp [hs, hcp, Contact.noOpOutcome]

/-- Witness for C1 at a concrete spam submission: the honeypot field of
`spamForm` holds `"spam-bot"`, and the handler performs no validation, no
endpoint call, and shows no notice. -/
theorem c1_honeypot_blocks_pipeline_witness :
    (spamForm.fields.find? (fun g => g.name == Contact.HONEYPOT_FIELD) =
      some { name := "website", value := "spam-bot" }) ∧
    jsTrim "spam-bot" ≠ "" ∧
    (Contact.handleFormSubmit idleState spamForm (.resolved true "")).validationRan = false ∧
    (Contact.handleFormSubmit idleState spamForm (.resolved true "")).submitCalled = false ∧
    (Contact.handleFormSubmit idleState spamForm (.resolved true "")).successShown = false ∧
    (Contact.handleFormSubmit idleState spamForm (.resolved true "")).errorShown = none := by
  refine ⟨by decide, by decide, ?_⟩
  have h := c1_honeypot_blocks_pipeline idleState spamForm (.resolved true "")
    { name := "website", value := "spam-bot" } (by decide) (by decide)
  exact ⟨h.1, h.2.1, h.2.2.1, h.2.2.2⟩

/-- C2: when `formState.isSubmitting` is already true, a second call of
`handleFormSubmit` is a complete no-op: the form state is returned
unchanged, no validation runs, the endpoint is not called, no notice is
shown, and the submit button keeps its enabled, original-label state. -/
theorem c2_isSubmitting_guard (st : Contact.FormState) (form : Contact.Form)
    (res : Contact.SubmitResult) (h : st.isSubmitting = true) :
    Contact.handleFormSubmit st form res = Contact.noOpOutcome st form := by
  unfold Contact.handleFormSubmit
  simp [h]

/-- Witness for C2: a concrete in-flight state is returned untouched with
no side effects recorded. -/
theorem c2_isSubmitting_guard_witness :
    ({ isSubmitting := true, validationErrors := [("email", "x")],
       touchedFields := ["email"] } : Contact.FormState).isSubmitting = true ∧
    Contact.handleFormSubmit
      { isSubmitting := true, validationErrors := [("email", "x")],
        touchedFields := ["email"] } goodForm (.resolved true "") =
      Contact.noOpOutcome
        { isSubmitting := true, validationErrors := [("email", "x")],
          touchedFields := ["email"] } goodForm :=
  ⟨by decide,
   c2_isSubmitting_guard
     { isSubmitting := true, validationErrors := [("email", "x")],
       touchedFields := ["email"] } goodForm (.resolved true "") rfl⟩

/-- C3: on every run of `handleFormSubmit` that reaches the submission call
(`submitCalled = true`), the `isSubmitting` flag is false again at the end
and the submit button is re-enabled with its original label and no busy
marker — for a promise resolved with success, resolved with failure, or
rejected alike, thanks to the `finally` block. -/
theorem c3_cleanup_on_every_exit (st : Contact.FormState) (form : Contact.Form)
    (res : Contact.SubmitResult)
    (h : (Contact.handleFormSubmit st form res).submitCalled = true) :
    (Contact.handleFormSubmit st form res).state.isSubmitting = false ∧
    (Contact.handleFormSubmit st form res).btnDisabled = false ∧
    (Contact.handleFormSubmit st form res).btnText = form.submitBtnText ∧
    (Contact.handleFormSubmit st form res).btnAriaBusy = false := by
  unfold Contact.handleFormSubmit at h ⊢
  by_cases h1 : st.isSubmitting
  · simp [h1, Contact.noOpOutcome] at h
  · by_cases h2 : Contact.checkHoneypot form = true
    · by_cases h3 : (Contact.validateForm st form).2 = true
      · cases res with
        | resolved s m => cases s <;> simp [h1, h2, h3]
        | rejected m => simp [h1, h2, h3]
      · simp [h1, h2, h3] at h
    · simp [h1, h2, Contact.noOpOutcome] at h

/-- Witness for C3 at three concrete submission endings of a valid form:
the endpoint is reached, and in each case the flag is cleared and the button
restored. -/
theorem c3_cleanup_on_every_exit_witness :
    (Contact.handleFormSubmit idleState goodForm (.rejected "boom")).submitCalled = true ∧
    (Contact.handleFormSubmit idleState goodForm (.rejected "boom")).state.isSubmitting = false ∧
    (Contact.handleFormSubmit idleState goodForm (.rejected "boom")).btnDisabled = false ∧
    (Contact.handleFormSubmit idleState goodForm (.rejected "boom")).btnText =
      goodForm.submitBtnText ∧
    (Contact.handleFormSubmit idleState goodForm (.rejected "boom")).btnAriaBusy = false := by
  refine ⟨by decide, ?_⟩
  exact c3_cleanup_on_every_exit idleState goodForm (.rejected "boom") (by decide)

/-- Lower-casing the empty string gives the empty string. -/
lemma jsToLower_empty : Validation.jsToLower "" = "" := rfl

/-- Formatting the empty phone string gives the empty string. -/
lemma formatPhone_empty : Validation.formatPhone "" = "" := rfl

/-- `validateRequired` always carries the sanitized input as its value. -/
lemma validateRequired_value (s fn : String) :
    (Validation.validateRequired s fn).value = Validation.sanitizeString s := by
  simp only [Validation.validateRequired, Validation.validateRequiredJs,
    Validation.sanitizeString]
  split_ifs <;> rfl

/-- `validateName` always carries the sanitized input as its value. -/
lemma validateName_value (s : String) (r : Bool) :
    (Validation.validateName s r).value = Validation.sanitizeString s := by
  simp only [Validation.validateName, Validation.validateNameJs,
    Validation.sanitizeString]
  split_ifs <;> rfl

/-- `validateMessage` always carries the sanitized input as its value. -/
lemma validateMessage_value (s : String) (r : Bool) :
    (Validation.validateMessage s r).value = Validation.sanitizeString s := by
  simp only [Validation.validateMessage, Validation.validateMessageJs,
    Validation.sanitizeString]
  split_ifs <;> rfl

/-- `validateGrade` always carries the sanitized input as its value. -/
lemma validateGrade_value (s : String) (r : Bool) :
    (Validation.validateGrade s r).value = Validation.sanitizeString s := by
  simp only [Validation.validateGrade, Validation.validateGradeJs,
    Validation.sanitizeString]
  split_ifs <;> rfl

/-- `validateEmail` carries the lower-cased sanitized input as its value on
acceptance, and the plain sanitized input on rejection. -/
lemma validateEmail_value_cases (s : String) (r : Bool) :
    ((Validation.validateEmail s r).isValid = true ∧
     (Validation.validateEmail s r).value =
       Validation.jsToLower (Validation.sanitizeString s)) ∨
    ((Validation.validateEmail s r).isValid = false ∧
     (Validation.validateEmail s r).value = Validation.sanitizeString s) := by
  simp only [Validation.validateEmail, Validation.validateEmailJs,
    Validation.sanitizeString]
  split_ifs with h1 h2 h3
  · right; exact ⟨rfl, rfl⟩
  · left; refine ⟨rfl, ?_⟩
    show Validation.sanitizeStringJs (.str s) =
      Validation.jsToLower (Validation.sanitizeStringJs (.str s))
    rw [h1, jsToLower_empty]
  · right; exact ⟨rfl, rfl⟩
  · split
    · split_ifs with h4 h5
      · right; exact ⟨rfl, rfl⟩
      · right; exact ⟨rfl, rfl⟩
      · left; exact ⟨rfl, rfl⟩
    · right; exact ⟨rfl, rfl⟩

/-- `validatePhone` carries the display-formatted sanitized input as its
value on acceptance, and the plain sanitized input on rejection. -/
lemma validatePhone_value_cases (s : String) (r : Bool) :
    ((Validation.validatePhone s r).isValid = true ∧
     (Validation.validatePhone s r).value =
       Validation.formatPhone (Validation.sanitizeString s)) ∨
    ((Validation.validatePhone s r).isValid = false ∧
     (Validation.validatePhone s r).value = Validation.sanitizeString s) := by
  simp only [Validation.validatePhone, Validation.validatePhoneJs,
    Validation.sanitizeString]
  split_ifs with h1 h2 h3 h4 h5
  · right; exact ⟨rfl, rfl⟩
  · left; refine ⟨rfl, ?_⟩
    show Validation.sanitizeStringJs (.str s) =
      Validation.formatPhone (Validation.sanitizeStringJs (.str s))
    rw [h1, formatPhone_empty]
  · right; exact ⟨rfl, rfl⟩
  · right; exact ⟨rfl, rfl⟩
  · right; exact ⟨rfl, rfl⟩
  · left; exact ⟨rfl, rfl⟩

/-- C4 counterexample: the claim that every validator's `value` equals the
sanitized input independent of validity fails on `validateEmail` at
`"User@Example.COM"`, whose accepted value is lower-cased. -/
theorem c4_counterexample :
    (Validation.validateEmail "User@Example.COM" true).isValid = true ∧
    (Validation.validateEmail "User@Example.COM" true).value ≠
      Validation.sanitizeString "User@Example.COM" := by
  decide

/-- C4 (amended): `validateRequired`, `validateName`, `validateMessage` and
`validateGrade` always carry the sanitized input as their `value`, and so do
`validateEmail` and `validatePhone` whenever the result is invalid; on a
valid result `validateEmail` instead carries the lower-cased sanitized input
and `validatePhone` the display-formatted sanitized input. -/
theorem c4_value_sanitized_amended :
    (∀ s fn, (Validation.validateRequired s fn).value = Validation.sanitizeString s) ∧
    (∀ s r, (Validation.validateName s r).value = Validation.sanitizeString s) ∧
    (∀ s r, (Validation.validateMessage s r).value = Validation.sanitizeString s) ∧
    (∀ s r, (Validation.validateGrade s r).value = Validation.sanitizeString s) ∧
    (∀ s r, (Validation.validateEmail s r).isValid = false →
      (Validation.validateEmail s r).value = Validation.sanitizeString s) ∧
    (∀ s r, (Validation.validateEmail s r).isValid = true →
      (Validation.validateEmail s r).value =
        Validation.jsToLower (Validation.sanitizeString s)) ∧
    (∀ s r, (Validation.validatePhone s r).isValid = false →
      (Validation.validatePhone s r).value = Validation.sanitizeString s) ∧
    (∀ s r, (Validation.validatePhone s r).isValid = true →
      (Validation.validatePhone s r).value =
        Validation.formatPhone (Validation.sanitizeString s)) := by
  refine ⟨validateRequired_value, validateName_value, validateMessage_value,
    validateGrade_value, ?_, ?_, ?_, ?_⟩
  · intro s r h
    rcases validateEmail_value_cases s r with ⟨hv, _⟩ | ⟨_, hval⟩
    · rw [hv] at h; cases h
    · exact hval
  · intro s r h
    rcases validateEmail_value_cases s r with ⟨_, hval⟩ | ⟨hv, _⟩
    · exact hval
    · rw [hv] at h; cases h
  · intro s r h
    rcases validatePhone_value_cases s r with ⟨hv, _⟩ | ⟨_, hval⟩
    · rw [hv] at h; cases h
    · exact hval
  · intro s r h
    rcases validatePhone_value_cases s r with ⟨_, hval⟩ | ⟨hv, _⟩
    · exact hval
    · rw [hv] at h; cases h

/-- Witness for C4 (amended) at concrete inputs: an invalid email keeps the
sanitized value, a valid phone gets the formatted value. -/
theorem c4_value_sanitized_amended_witness :
    (Validation.validateEmail "not-an-email" true).isValid = false ∧
    (Validation.validateEmail "not-an-email" true).value =
      Validation.sanitizeString "not-an-email" ∧
    (Validation.validatePhone "415 555 1234" false).isValid = true ∧
    (Validation.validatePhone "415 555 1234" false).value =
      Validation.formatPhone (Validation.sanitizeString "415 555 1234") := by
  refine ⟨by decide, ?_, by decide, ?_⟩
  · exact c4_value_sanitized_amended.2.2.2.2.1 "not-an-email" true (by decide)
  · exact c4_value_sanitized_amended.2.2.2.2.2.2.2 "415 555 1234" false (by decide)

/-- C6: every email accepted by `validateEmail` comes back with the
lower-cased sanitized input as its normalized value; in particular
`"User@Example.COM"` is accepted and normalized to `"user@example.com"`. -/
theorem c6_email_lowercase_roundtrip :
    (∀ s r, (Validation.validateEmail s r).isValid = true →
      (Validation.validateEmail s r).value =
        Validation.jsToLower (Validation.sanitizeString s)) ∧
    Validation.validateEmail "User@Example.COM" true =
      { isValid := true, error := none, value := "user@example.com" } := by
  refine ⟨?_, by decide⟩
  intro s r h
  rcases validateEmail_value_cases s r with ⟨_, hval⟩ | ⟨hv, _⟩
  · exact hval
  · rw [hv] at h; cases h

/-- Witness for C6 at `"User@Example.COM"`: accepted, and its value is the
lower-cased sanitized input. -/
theorem c6_email_lowercase_roundtrip_witness :
    (Validation.validateEmail "User@Example.COM" true).isValid = true ∧
    (Validation.validateEmail "User@Example.COM" true).value =
      Validation.jsToLower (Validation.sanitizeString "User@Example.COM") := by
  refine ⟨by decide, ?_⟩
  exact c6_email_lowercase_roundtrip.1 "User@Example.COM" true (by decide)

/-- A string differs from the empty string exactly when its character list
is non-empty. -/
lemma string_ne_empty_iff_data (s : String) : s ≠ "" ↔ s.data ≠ [] := by
  constructor
  · intro h hdata
    exact h (String.ext hdata)
  · intro h heq
    apply h
    rw [heq]

/-- C5 counterexample: the contact form's phone validator accepts a
non-empty 16-digit value, though the claim requires every phone validator
in the pipeline to reject more than 15 digits. -/
theorem c5_counterexample :
    jsTrim "1234567890123456" ≠ "" ∧
    ((jsTrim "1234567890123456").data.filter Char.isDigit).length = 16 ∧
    (Contact.rulePhone "1234567890123456").isValid = true := by
  decide

/-- C5 (amended): the validation module's `validatePhone` accepts a
non-empty sanitized value exactly when every character is a digit,
whitespace, hyphen or parenthesis and the digit count lies in [10, 15]; the
contact form's phone rule, however, accepts a non-empty trimmed value
exactly when its digit count is at least 10, with no character-set check
and no 15-digit upper bound. -/
theorem c5_phone_validation_amended :
    (∀ s r, Validation.sanitizeString s ≠ "" →
      ((Validation.validatePhone s r).isValid = true ↔
        ((Validation.sanitizeString s).data.all Validation.phoneChar = true ∧
         10 ≤ ((Validation.sanitizeString s).data.filter Char.isDigit).length ∧
         ((Validation.sanitizeString s).data.filter Char.isDigit).length ≤ 15))) ∧
    (∀ s, jsTrim s ≠ "" →
      ((Contact.rulePhone s).isValid = true ↔
        10 ≤ ((jsTrim s).data.filter Char.isDigit).length)) := by
  constructor
  · intro s r h
    have hdata : (Validation.sanitizeString s).data ≠ [] :=
      (string_ne_empty_iff_data _).mp h
    have hempty : (Validation.sanitizeString s).data.isEmpty = false := by
      cases hda : (Validation.sanitizeString s).data with
      | nil => exact absurd hda hdata
      | cons a l => rfl
    simp only [Validation.sanitizeString] at h hdata hempty
    simp only [Validation.validatePhone, Validation.validatePhoneJs,
      Validation.sanitizeString, Validation.phoneRegexTest,
      Validation.normalizePhone, Validation.normalizePhoneJs,
      Validation.MIN_PHONE_DIGITS, Validation.MAX_PHONE_DIGITS]
    rw [if_neg h]
    by_cases hall : (Validation.sanitizeStringJs (.str s)).data.all Validation.phoneChar = true
    · rw [if_neg (by simp [hempty, hall])]
      simp only [String.length]
      set n := ((Validation.sanitizeStringJs (.str s)).data.filter Char.isDigit).length
        with hn
      by_cases h10 : n < 10
      · rw [if_pos h10]
        simp only [hall]
        constructor
        · intro hfalse; cases hfalse
        · intro hr; omega
      · rw [if_neg h10]
        by_cases h15 : n > 15
        · rw [if_pos h15]
          constructor
          · intro hfalse; cases hfalse
          · intro hr; omega
        · rw [if_neg h15]
          simp only [hall, true_and]
          constructor
          · intro _; omega
          · intro _; trivial
    · rw [if_pos (by simp [hempty, hall])]
      constructor
      · intro hfalse; cases hfalse
      · intro hr; exact absurd hr.1 hall
  · intro s h
    simp only [Contact.rulePhone]
    rw [if_neg h]
    by_cases h10 : ((jsTrim s).data.filter Char.isDigit).length < 10
    · rw [if_pos h10]
      constructor
      · intro hfalse; cases hfalse
      · intro hr; omega
    · rw [if_neg h10]
      constructor
      · intro _; omega
      · intro _; rfl

/-- Witness for C5 (amended): the module validator accepts the formatted
10-digit value `"(415) 555-1234"`, and the contact rule accepts the
16-digit value the module would reject. -/
theorem c5_phone_validation_amended_witness :
    Validation.sanitizeString "(415) 555-1234" ≠ "" ∧
    (Validation.validatePhone "(415) 555-1234" false).isValid = true ∧
    jsTrim "1234567890123456" ≠ "" ∧
    (Contact.rulePhone "1234567890123456").isValid = true := by
  refine ⟨by decide, ?_, by decide, ?_⟩
  · exact (c5_phone_validation_amended.1 "(415) 555-1234" false (by decide)).mpr
      (by decide)
  · exact (c5_phone_validation_amended.2 "1234567890123456" (by decide)).mpr
      (by decide)

/-- Keeping only the digits of the 10-digit display grouping recovers
exactly the original digit list. -/
lemma filter_digits_of_formatted (d : List Char)
    (hmem : ∀ c ∈ d, Char.isDigit c = true) :
    ('(' :: d.take 3 ++ ')' :: ' ' :: (d.drop 3).take 3 ++ '-' ::
      d.drop 6).filter Char.isDigit = d := by
  have t1 : (d.take 3).filter Char.isDigit = d.take 3 :=
    List.filter_eq_self.mpr (fun a ha => hmem a (List.mem_of_mem_take ha))
  have t2 : ((d.drop 3).take 3).filter Char.isDigit = (d.drop 3).take 3 :=
    List.filter_eq_self.mpr
      (fun a ha => hmem a (List.mem_of_mem_drop (List.mem_of_mem_take ha)))
  have t3 : (d.drop 6).filter Char.isDigit = d.drop 6 :=
    List.filter_eq_self.mpr (fun a ha => hmem a (List.mem_of_mem_drop ha))
  have hparen : Char.isDigit '(' = false := rfl
  have hrparen : Char.isDigit ')' = false := rfl
  have hspace : Char.isDigit ' ' = false := rfl
  have hdash : Char.isDigit '-' = false := rfl
  have h6 : d.drop 6 = (d.drop 3).drop 3 := by
    rw [List.drop_drop]
  rw [h6]
  simp only [List.filter_cons, List.filter_append, hparen, hrparen, hspace,
    hdash, Bool.false_eq_true, if_false, t1, t2,
    List.filter_eq_self.mpr (fun a ha => hmem a
      (List.mem_of_mem_drop (List.mem_of_mem_drop ha)))]
  rw [List.append_assoc, List.take_append_drop, List.take_append_drop]

/-- C7: `formatPhone` is idempotent on every input carrying exactly 10
digits, and on the concrete pair from the specification: both
`"4155551234"` and its formatted form `"(415) 555-1234"` display as
`"(415) 555-1234"`. -/
theorem c7_formatPhone_idempotent :
    (∀ s, (Validation.normalizePhone s).length = 10 →
      Validation.formatPhone (Validation.formatPhone s) = Validation.formatPhone s) ∧
    Validation.formatPhone "4155551234" = "(415) 555-1234" ∧
    Validation.formatPhone "(415) 555-1234" = "(415) 555-1234" := by
  refine ⟨?_, by decide, by decide⟩
  intro s h
  have hd : (s.data.filter Char.isDigit).length = 10 := h
  set d := s.data.filter Char.isDigit with hdef
  have hmem : ∀ c ∈ d, Char.isDigit c = true := fun c hc => List.of_mem_filter hc
  have h1 : Validation.formatPhone s =
      String.mk ('(' :: d.take 3 ++ ')' :: ' ' :: (d.drop 3).take 3 ++ '-' ::
        d.drop 6) := by
    simp only [Validation.formatPhone, Validation.normalizePhone,
      Validation.normalizePhoneJs]
    rw [if_pos hd]
  have h2 : Validation.formatPhone
      (String.mk ('(' :: d.take 3 ++ ')' :: ' ' :: (d.drop 3).take 3 ++ '-' ::
        d.drop 6)) =
      String.mk ('(' :: d.take 3 ++ ')' :: ' ' :: (d.drop 3).take 3 ++ '-' ::
        d.drop 6) := by
    simp only [Validation.formatPhone, Validation.normalizePhone,
      Validation.normalizePhoneJs]
    simp only [filter_digits_of_formatted d hmem]
    rw [if_pos hd]
  rw [h1, h2]

/-- Every character of a trimmed list already occurs in the list. -/
lemma mem_of_mem_trimL {c : Char} {l : List Char} (h : c ∈ trimL l) : c ∈ l := by
  unfold trimL at h
  rw [List.mem_reverse] at h
  have h1 := (List.dropWhile_sublist jsWhitespace).mem h
  rw [List.mem_reverse] at h1
  exact (List.dropWhile_sublist jsWhitespace).mem h1

/-- C8 counterexample: `"\x00 \x00"` consists only of whitespace and ASCII
control characters, yet `sanitizeString` returns `" "` (trim runs before
control stripping, so the inner space survives) and `validateRequired`
therefore accepts it. -/
theorem c8_counterexample :
    (∀ c ∈ ("\x00 \x00" : String).data, jsWhitespace c = true ∨ isCtlChar c = true) ∧
    Validation.sanitizeString "\x00 \x00" = " " ∧
    (Validation.validateRequired "\x00 \x00" "Field").isValid = true := by
  decide

/-- C8 (amended): for every string consisting solely of whitespace
characters, and for every string consisting solely of ASCII control
characters, `sanitizeString` returns the empty string and
`validateRequired` fails with the generic required-field error; a mixed
whitespace-and-control string can instead sanitize to non-empty
whitespace. -/
theorem c8_blank_sanitizes_empty_amended (s : String)
    (h : (∀ c ∈ s.data, jsWhitespace c = true) ∨ (∀ c ∈ s.data, isCtlChar c = true)) :
    Validation.sanitizeString s = "" ∧
    Validation.validateRequired s "Field" =
      { isValid := false, error := some Validation.REQUIRED, value := "" } := by
  have hsan : Validation.sanitizeString s = "" := by
    simp only [Validation.sanitizeString, Validation.sanitizeStringJs]
    rcases h with hws | hctl
    · have hdrop : s.data.dropWhile jsWhitespace = [] :=
        List.dropWhile_eq_nil_iff.mpr hws
      unfold trimL
      rw [hdrop]
      rfl
    · have hfil : (trimL s.data).filter (fun c => !(isCtlChar c)) = [] := by
        apply List.filter_eq_nil_iff.mpr
        intro a ha
        simp [hctl a (mem_of_mem_trimL ha)]
      rw [hfil]
  refine ⟨hsan, ?_⟩
  have : Validation.validateRequired s "Field" =
      Validation.validateRequiredJs (.str s) "Field" := rfl
  rw [this]
  simp only [Validation.validateRequiredJs]
  have hs : Validation.sanitizeStringJs (.str s) = "" := hsan
  rw [hs]
  rfl

/-- Witness for C8 (amended) at the all-whitespace string `" \t "` and the
all-control string `"\x01\x02"`. -/
theorem c8_blank_sanitizes_empty_amended_witness :
    (∀ c ∈ (" \t " : String).data, jsWhitespace c = true) ∧
    Validation.sanitizeString " \t " = "" ∧
    (Validation.validateRequired " \t " "Field").isValid = false ∧
    (∀ c ∈ ("\x01\x02" : String).data, isCtlChar c = true) ∧
    Validation.sanitizeString "\x01\x02" = "" ∧
    (Validation.validateRequired "\x01\x02" "Field").isValid = false := by
  have h1 := c8_blank_sanitizes_empty_amended " \t " (Or.inl (by decide))
  have h2 := c8_blank_sanitizes_empty_amended "\x01\x02" (Or.inr (by decide))
  exact ⟨by decide, h1.1, by rw [h1.2], by decide, h2.1, by rw [h2.2]⟩

/-- Witness for C7: the general idempotence applied at the 10-digit input
`"4155551234"`. -/
theorem c7_formatPhone_idempotent_witness :
    (Validation.normalizePhone "4155551234").length = 10 ∧
    Validation.formatPhone (Validation.formatPhone "4155551234") =
      Validation.formatPhone "4155551234" :=
  ⟨by decide, c7_formatPhone_idempotent.1 "4155551234" (by decide)⟩

/-- An all-`'a'` string of the given length, for the message boundary
checks. -/
def msgOfLen (n : Nat) : String :=
  String.mk (List.replicate n 'a')

set_option maxRecDepth 100000

/-- C9: both the validation module's message validator (with its default
required flag) and the contact form's message rule accept exactly the
inputs whose sanitized (resp. trimmed) length lies in [10, 1000]; at the
boundaries, length 9 is rejected as too short, lengths 10 and 1000 are
accepted, and length 1001 is rejected as too long. -/
theorem c9_message_length_bounds :
    (∀ s, (Validation.validateMessage s true).isValid = true ↔
      (10 ≤ (Validation.sanitizeString s).length ∧
       (Validation.sanitizeString s).length ≤ 1000)) ∧
    (∀ s, (Contact.ruleMessage s).isValid = true ↔
      (10 ≤ (jsTrim s).length ∧ (jsTrim s).length ≤ 1000)) ∧
    (Validation.validateMessage (msgOfLen 9) true).isValid = false ∧
    (Validation.validateMessage (msgOfLen 9) true).error =
      some Validation.MESSAGE_TOO_SHORT ∧
    (Validation.validateMessage (msgOfLen 10) true).isValid = true ∧
    (Validation.validateMessage (msgOfLen 1000) true).isValid = true ∧
    (Validation.validateMessage (msgOfLen 1001) true).isValid = false ∧
    (Validation.validateMessage (msgOfLen 1001) true).error =
      some Validation.MESSAGE_TOO_LONG ∧
    (Contact.ruleMessage (msgOfLen 9)).isValid = false ∧
    (Contact.ruleMessage (msgOfLen 10)).isValid = true ∧
    (Contact.ruleMessage (msgOfLen 1000)).isValid = true ∧
    (Contact.ruleMessage (msgOfLen 1001)).isValid = false := by
  refine ⟨?_, ?_, by decide, by decide, by decide, by decide, by decide,
    by decide, by decide, by decide, by decide, by decide⟩
  · intro s
    simp only [Validation.validateMessage, Validation.validateMessageJs,
      Validation.sanitizeString, Validation.MIN_MESSAGE_LENGTH,
      Validation.MAX_MESSAGE_LENGTH, if_true]
    split_ifs with h1 h2 h3
    · constructor
      · intro hfalse; cases hfalse
      · intro ha
        rw [h1] at ha
        exact absurd ha.1 (by decide)
    · constructor
      · intro hfalse; cases hfalse
      · intro ha; omega
    · constructor
      · intro hfalse; cases hfalse
      · intro ha; omega
    · constructor
      · intro _; omega
      · intro _; rfl
  · intro s
    simp only [Contact.ruleMessage, Contact.MIN_MESSAGE_LENGTH,
      Contact.MAX_MESSAGE_LENGTH]
    split_ifs with h1 h2 h3
    · constructor
      · intro hfalse; cases hfalse
      · intro ha
        rw [h1] at ha
        exact absurd ha.1 (by decide)
    · constructor
      · intro hfalse; cases hfalse
      · intro ha; omega
    · constructor
      · intro hfalse; cases hfalse
      · intro ha; omega
    · constructor
      · intro _; omega
      · intro _; rfl

/-- C10: every non-string input (null, undefined, a number, an object) is
turned into the empty string by `sanitizeString` and `normalizePhone`
without any failure, so each validator of the module treats such an input
exactly like an empty field. -/
theorem c10_nonstring_like_empty (v : Validation.JsValue)
    (hv : v.isString = false) (fn : String) (r : Bool) :
    Validation.sanitizeStringJs v = "" ∧
    Validation.normalizePhoneJs v = "" ∧
    Validation.validateRequiredJs v fn = Validation.validateRequired "" fn ∧
    Validation.validateEmailJs v r = Validation.validateEmail "" r ∧
    Validation.validatePhoneJs v r = Validation.validatePhone "" r ∧
    Validation.validateNameJs v r = Validation.validateName "" r ∧
    Validation.validateMessageJs v r = Validation.validateMessage "" r ∧
    Validation.validateGradeJs v r = Validation.validateGrade "" r := by
  cases v with
  | str s => simp [Validation.JsValue.isString] at hv
  | nullV => exact ⟨rfl, rfl, rfl, rfl, rfl, rfl, rfl, rfl⟩
  | undef => exact ⟨rfl, rfl, rfl, rfl, rfl, rfl, rfl, rfl⟩
  | num n => exact ⟨rfl, rfl, rfl, rfl, rfl, rfl, rfl, rfl⟩
  | obj => exact ⟨rfl, rfl, rfl, rfl, rfl, rfl, rfl, rfl⟩

/-- Witness for C10 at `null`: sanitization returns the empty string and
the required validator answers as it does on an empty field. -/
theorem c10_nonstring_like_empty_witness :
    Validation.JsValue.isString .nullV = false ∧
    Validation.sanitizeStringJs .nullV = "" ∧
    Validation.validateRequiredJs .nullV "Field" =
      Validation.validateRequired "" "Field" := by
  have h := c10_nonstring_like_empty .nullV rfl "Field" true
  exact ⟨rfl, h.1, h.2.2.1⟩

example : Validation.validateEmail "User@Example.COM" true =
    { isValid := true, error := none, value := "user@example.com" } := by decide

example : Validation.formatPhone "4155551234" = "(415) 555-1234" := by decide

example : Validation.formatPhone "(415) 555-1234" = "(415) 555-1234" := by decide

example : Validation.sanitizeString "\x00 \x00" = " " := by decide
